import Mathlib

/-!
Verification of the item-routing workflow engine (`items/models.py`).

The embedding models one `Item` together with its ledger of `Transaction`
rows and the fresh-id counter of the store.  Statuses, locations and item
states are the enum strings the Python code stores in its char fields;
the two exception classes become the constructors of `DomainError`.
Every operation returns the post state paired with the raised error, if
any; a raise short-circuits exactly where the Python `raise` sits, so the
state returned on an error is the state at raise time.
-/

namespace ItemRouting

-- `TransactionLocation`: a given location for funds in a Transaction.
namespace TransactionLocation

def ORIGINATOR_BANK : String := "originator_bank"

def ROUTABLE : String := "routable"

def DESTINATION_BANK : String := "destination_bank"

end TransactionLocation

-- `TransactionStatus`: a given status for funds in a Transaction.
namespace TransactionStatus

def PROCESSING : String := "processing"

def COMPLETED : String := "completed"

def ERROR : String := "error"

def REFUNDING : String := "refunding"

def REFUNDED : String := "refunded"

def FIXING : String := "fixing"

end TransactionStatus

-- `ItemState`: states for an Item relative to its associated Transaction.
namespace ItemState

def PROCESSING : String := "processing"

def CORRECTING : String := "correcting"

def ERROR : String := "error"

def RESOLVED : String := "resolved"

end ItemState

/-- The two exception classes of `models.py`, with the message they carry. -/
inductive DomainError where
  | InvalidStateTransitionError (msg : String)
  | InvalidStateError (msg : String)
deriving DecidableEq, Repr

/-- A `Transaction` row: id (opaque identity, modelled as the `Nat` handed
out by the store's counter), status, location and the active flag.  The
owning-item foreign key is implicit: the system holds a single Item and
every Transaction of the ledger belongs to it. -/
structure Transaction where
  id : Nat
  status : String
  location : String
  is_active : Bool
deriving DecidableEq, Repr

/-- An `Item` row: id (opaque, modelled as a string), decimal `amount`
(modelled in cents), the nullable active-transaction foreign key (by
transaction id), the denormalized `state` and the sticky `has_errored`
flag. -/
structure Item where
  id : String
  amount : Int
  transaction : Option Nat
  state : String
  has_errored : Bool
deriving DecidableEq, Repr

/-- The persistent store: the Item, its ledger of Transactions in creation
order, and the counter producing fresh transaction ids. -/
structure Sys where
  item : Item
  transactions : List Transaction
  nextId : Nat
deriving DecidableEq, Repr

/-- Python `Item.__str__`. -/
def Item.strRepr (item : Item) : String := "Item<" ++ item.id ++ ">"

/-- Python `Transaction.__str__`. -/
def Transaction.strRepr (t : Transaction) : String :=
  "Transaction<" ++ toString t.id ++ ">"

/-- The seven valid (status, location) pairs of `Transaction.is_valid_state`. -/
def Transaction.valid_states : List (String × String) :=
  [(TransactionStatus.PROCESSING, TransactionLocation.ORIGINATOR_BANK),
   (TransactionStatus.PROCESSING, TransactionLocation.ROUTABLE),
   (TransactionStatus.COMPLETED, TransactionLocation.DESTINATION_BANK),
   (TransactionStatus.ERROR, TransactionLocation.ROUTABLE),
   (TransactionStatus.REFUNDING, TransactionLocation.ROUTABLE),
   (TransactionStatus.REFUNDED, TransactionLocation.ORIGINATOR_BANK),
   (TransactionStatus.FIXING, TransactionLocation.ROUTABLE)]

/-- Translation of `Transaction.is_valid_state(status, location)`.  The arguments are
`Option String` so that Python's `None` is `none`; `not (status and
location)` is true exactly when either argument is `None` or the empty
string. -/
def Transaction.is_valid_state (status location : Option String) : Bool :=
  match status, location with
  | some s, some l =>
    if s = "" ∨ l = "" then false
    else decide ((s, l) ∈ Transaction.valid_states)
  | _, _ => false

/-- The three valid starting pairs of `Transaction.is_valid_start_state`. -/
def Transaction.valid_start_states : List (String × String) :=
  [(TransactionStatus.PROCESSING, TransactionLocation.ORIGINATOR_BANK),
   (TransactionStatus.REFUNDING, TransactionLocation.ROUTABLE),
   (TransactionStatus.FIXING, TransactionLocation.ROUTABLE)]

/-- Translation of `Transaction.is_valid_start_state(status, location)`. -/
def Transaction.is_valid_start_state (status location : Option String) : Bool :=
  if Transaction.is_valid_state status location = false then false
  else
    match status, location with
    | some s, some l => decide ((s, l) ∈ Transaction.valid_start_states)
    | _, _ => false

/-- Translation of `Transaction.update_item_status(new_transaction)`: recomputes the
Item's `state` (and the sticky `has_errored` flag) from this Transaction.
Returns the updated Item and whether `item.save()` was called. -/
def Transaction.update_item_status (t : Transaction) (item : Item)
    (new_transaction : Bool) : Item × Bool :=
  if t.is_active = false then
    -- not currently the active Transaction for an Item, state change does not affect it
    (item, false)
  else
    let step : Item × Bool × Option String :=
      if new_transaction then
        if item.has_errored then (item, false, some ItemState.CORRECTING)
        else (item, false, some ItemState.PROCESSING)
      else if t.status = TransactionStatus.ERROR then
        if item.has_errored = false then
          ({ item with has_errored := true }, true, some ItemState.ERROR)
        else (item, false, some ItemState.ERROR)
      else if t.status = TransactionStatus.COMPLETED ∨
              t.status = TransactionStatus.REFUNDED then
        (item, false, some ItemState.RESOLVED)
      else (item, false, none)
    match step with
    | (item1, update, new_state) =>
      if update ∨ (new_state.isSome ∧ new_state ≠ some item1.state) then
        ({ item1 with state := new_state.getD item1.state }, true)
      else (item1, false)

/-- Translation of `Transaction.mark_inactive()`: clears the active flag, saves, and runs
the (short-circuiting) Item recompute.  Returns the updated row, the
(unchanged) Item and whether the Item was saved by the recompute. -/
def Transaction.mark_inactive (t : Transaction) (item : Item) :
    Transaction × Item × Bool :=
  let t1 := { t with is_active := false }
  match Transaction.update_item_status t1 item false with
  | (item1, saved) => (t1, item1, saved)

/-- The transition logic of `Transaction.move()`.  The `save()` and
`update_item_status()` calls the method ends with are applied by
`Item.move` below, after this pure part. -/
def Transaction.move (t : Transaction) : Transaction × Option DomainError :=
  if t.status = TransactionStatus.COMPLETED ∨ t.status = TransactionStatus.ERROR ∨
     t.status = TransactionStatus.REFUNDED then
    (t, some (.InvalidStateTransitionError "Transaction is not in a state that can be moved."))
  else
    let t1 :=
      if t.location = TransactionLocation.ORIGINATOR_BANK then
        -- move to internal processing state
        { t with location := TransactionLocation.ROUTABLE }
      else if t.location = TransactionLocation.ROUTABLE then
        if t.status = TransactionStatus.PROCESSING then
          -- move to completed bank state
          { t with location := TransactionLocation.DESTINATION_BANK,
                   status := TransactionStatus.COMPLETED }
        else if t.status = TransactionStatus.FIXING then
          -- move back into processing flow after error
          { t with status := TransactionStatus.PROCESSING }
        else if t.status = TransactionStatus.REFUNDING then
          -- move refund back to originating bank
          { t with status := TransactionStatus.REFUNDED,
                   location := TransactionLocation.ORIGINATOR_BANK }
        else t
      else t
    (t1, none)

/-- The transition logic of `Transaction.error()`; persistence as for
`Transaction.move`. -/
def Transaction.error (t : Transaction) : Transaction × Option DomainError :=
  if ¬(t.status = TransactionStatus.PROCESSING ∧
       t.location = TransactionLocation.ROUTABLE) then
    (t, some (.InvalidStateTransitionError
      "Transaction is not in a state that can be marked as errored."))
  else
    ({ t with location := TransactionLocation.ROUTABLE,
              status := TransactionStatus.ERROR }, none)

/-- Dereferences the Item's active-transaction foreign key into the
ledger.  In every reachable state the pointer, when set, names a row of
the ledger. -/
def Sys.activeTransaction (s : Sys) : Option Transaction :=
  match s.item.transaction with
  | none => none
  | some tid => s.transactions.find? (fun e => e.id == tid)

/-- Persists an updated Transaction row back into the ledger. -/
def Sys.saveTransaction (s : Sys) (t : Transaction) : Sys :=
  { s with transactions := s.transactions.map (fun e => if e.id = t.id then t else e) }

/-- The deactivation loop of `Item.create_transaction`: every Transaction
of the ledger that is still active and is not the newly created one gets
`mark_inactive()`, threading the Item through each recompute. -/
def deactivate_others (newId : Nat) : List Transaction → Item → List Transaction × Item
  | [], item => ([], item)
  | e :: rest, item =>
    if e.is_active = true ∧ e.id ≠ newId then
      match Transaction.mark_inactive e item with
      | (e1, item1, _) =>
        match deactivate_others newId rest item1 with
        | (rest1, item2) => (e1 :: rest1, item2)
    else
      match deactivate_others newId rest item with
      | (rest1, item2) => (e :: rest1, item2)

/-- Translation of `Item.create_transaction(initial_status, initial_location)`: validates
the start pair, creates the new active Transaction (whose `save()` fires
the new-transaction Item recompute), deactivates every other active
Transaction, and points the Item at the new row. -/
def Item.create_transaction (s : Sys) (initial_status initial_location : Option String) :
    Sys × Option DomainError :=
  if (initial_status = none ∨ initial_status = some "") ∨
     (initial_location = none ∨ initial_location = some "") then
    (s, some (.InvalidStateError
      "Status and Location are required to create a valid Transaction state"))
  else if Transaction.is_valid_start_state initial_status initial_location = false then
    (s, some (.InvalidStateError
      "Invalid Status/Location provided to create a valid Transaction state"))
  else
    let t : Transaction :=
      { id := s.nextId,
        status := initial_status.getD "",
        location := initial_location.getD "",
        is_active := true }
    -- transaction.save(): inserts the new row and, it being new, fires
    -- update_item_status(new_transaction=True)
    match Transaction.update_item_status t s.item true with
    | (item1, _) =>
      let txs1 := s.transactions ++ [t]
      -- ensure other Transactions for this item are inactive
      match deactivate_others t.id txs1 item1 with
      | (txs2, item2) =>
        let item3 := { item2 with transaction := some t.id }
        ({ item := item3, transactions := txs2, nextId := s.nextId + 1 }, none)

/-- Translation of `Item.begin_refund()`. -/
def Item.begin_refund (s : Sys) : Sys × Option DomainError :=
  match Sys.activeTransaction s with
  | none =>
    (s, some (.InvalidStateTransitionError
      (Item.strRepr s.item ++ " does not have a Transaction that can be refunded")))
  | some t =>
    if t.status ≠ TransactionStatus.ERROR then
      (s, some (.InvalidStateTransitionError
        ("Transaction " ++ Transaction.strRepr t ++ " is not in a state that can be refunded")))
    else
      Item.create_transaction s (some TransactionStatus.REFUNDING)
        (some TransactionLocation.ROUTABLE)

/-- Translation of `Item.fix()`. -/
def Item.fix (s : Sys) : Sys × Option DomainError :=
  match Sys.activeTransaction s with
  | none =>
    (s, some (.InvalidStateTransitionError
      (Item.strRepr s.item ++ " does not have a Transaction that can be fixed")))
  | some t =>
    if t.status ≠ TransactionStatus.ERROR then
      (s, some (.InvalidStateTransitionError
        ("Transaction " ++ Transaction.strRepr t ++ " is not in a state that can be fixed")))
    else
      Item.create_transaction s (some TransactionStatus.FIXING)
        (some TransactionLocation.ROUTABLE)

/-- Translation of `Item.move()`: delegates to the active Transaction's `move`, then
persists the row and runs the Item recompute. -/
def Item.move (s : Sys) : Sys × Option DomainError :=
  match Sys.activeTransaction s with
  | none =>
    (s, some (.InvalidStateTransitionError
      (Item.strRepr s.item ++ " does not have a Transaction that can be moved")))
  | some t =>
    match Transaction.move t with
    | (_, some e) => (s, some e)
    | (t1, none) =>
      let s1 := Sys.saveTransaction s t1
      match Transaction.update_item_status t1 s1.item false with
      | (item1, _) => ({ s1 with item := item1 }, none)

/-- Translation of `Item.error()`: delegates to the active Transaction's `error`, then
persists the row and runs the Item recompute. -/
def Item.error (s : Sys) : Sys × Option DomainError :=
  match Sys.activeTransaction s with
  | none =>
    (s, some (.InvalidStateTransitionError
      (Item.strRepr s.item ++ " does not have a Transaction that can be errored")))
  | some t =>
    match Transaction.error t with
    | (_, some e) => (s, some e)
    | (t1, none) =>
      let s1 := Sys.saveTransaction s t1
      match Transaction.update_item_status t1 s1.item false with
      | (item1, _) => ({ s1 with item := item1 }, none)

/-- The public operations of the command surface. -/
inductive Op where
  | create_transaction (initial_status initial_location : Option String)
  | begin_refund
  | fix
  | move
  | error
deriving DecidableEq, Repr

/-- Dispatches one operation. -/
def apply (s : Sys) : Op → Sys × Option DomainError
  | .create_transaction st loc => Item.create_transaction s st loc
  | .begin_refund => Item.begin_refund s
  | .fix => Item.fix s
  | .move => Item.move s
  | .error => Item.error s

/-- Runs a sequence of operations; a failing operation raises before any
mutation, so its post state is its pre state. -/
def runOps (s : Sys) (ops : List Op) : Sys :=
  ops.foldl (fun s o => (apply s o).1) s

/-- A freshly created Item: no transaction, default state `PROCESSING`,
`has_errored` false, empty ledger. -/
def initSys (itemId : String) (amount : Int) : Sys :=
  { item := { id := itemId, amount := amount, transaction := none,
              state := ItemState.PROCESSING, has_errored := false },
    transactions := [], nextId := 0 }

lemma is_valid_state_some_iff (s l : String) :
    Transaction.is_valid_state (some s) (some l) = true ↔
      (s, l) ∈ Transaction.valid_states := by
  show (if s = "" ∨ l = "" then false
        else decide ((s, l) ∈ Transaction.valid_states)) = true ↔ _
  split
  · rename_i h
    simp only [Bool.false_eq_true, false_iff]
    intro hmem
    rcases h with h | h <;> subst h <;>
      simp [Transaction.valid_states, TransactionStatus.PROCESSING,
        TransactionStatus.COMPLETED, TransactionStatus.ERROR,
        TransactionStatus.REFUNDING, TransactionStatus.REFUNDED,
        TransactionStatus.FIXING, TransactionLocation.ORIGINATOR_BANK,
        TransactionLocation.ROUTABLE, TransactionLocation.DESTINATION_BANK] at hmem
  · simp

lemma is_valid_state_none_left (l : Option String) :
    Transaction.is_valid_state none l = false := rfl

lemma is_valid_state_none_right (s : Option String) :
    Transaction.is_valid_state s none = false := by
  cases s <;> rfl

lemma is_valid_start_state_some_iff (s l : String) :
    Transaction.is_valid_start_state (some s) (some l) = true ↔
      (s, l) ∈ Transaction.valid_start_states := by
  show (if Transaction.is_valid_state (some s) (some l) = false then false
        else decide ((s, l) ∈ Transaction.valid_start_states)) = true ↔ _
  split
  · rename_i h
    simp only [Bool.false_eq_true, false_iff]
    intro hmem
    rw [Bool.eq_false_iff] at h
    apply h
    rw [is_valid_state_some_iff]
    simp [Transaction.valid_start_states, Transaction.valid_states] at hmem ⊢
    tauto
  · simp

lemma move_snd_eq_none_iff (t : Transaction) :
    (Transaction.move t).2 = none ↔
      ¬(t.status = TransactionStatus.COMPLETED ∨ t.status = TransactionStatus.ERROR ∨
        t.status = TransactionStatus.REFUNDED) := by
  unfold Transaction.move
  split <;> simp_all

/-- C9: `is_valid_state(status, location)` returns true for exactly the seven
valid pairs A–G and false for every other pair, including pairs where either
value is missing (`none`) or empty. -/
theorem claim_C9_is_valid_state_exhaustive (status location : Option String) :
    Transaction.is_valid_state status location = true ↔
      (status, location) ∈
        ([(some TransactionStatus.PROCESSING, some TransactionLocation.ORIGINATOR_BANK),
          (some TransactionStatus.PROCESSING, some TransactionLocation.ROUTABLE),
          (some TransactionStatus.COMPLETED, some TransactionLocation.DESTINATION_BANK),
          (some TransactionStatus.ERROR, some TransactionLocation.ROUTABLE),
          (some TransactionStatus.REFUNDING, some TransactionLocation.ROUTABLE),
          (some TransactionStatus.REFUNDED, some TransactionLocation.ORIGINATOR_BANK),
          (some TransactionStatus.FIXING, some TransactionLocation.ROUTABLE)] :
          List (Option String × Option String)) := by
  cases status with
  | none => simp [is_valid_state_none_left]
  | some s =>
    cases location with
    | none => simp [is_valid_state_none_right]
    | some l =>
      rw [is_valid_state_some_iff]
      simp only [Transaction.valid_states, List.mem_cons, List.not_mem_nil,
        Prod.mk.injEq, Option.some.injEq, or_false]


/-- C2: `move` fails with `InvalidStateTransitionError` exactly when the
status is COMPLETED, ERROR or REFUNDED; from every other legal
(status, location) state it produces exactly the claimed successor. -/
theorem claim_C2_move_transitions (t : Transaction) :
    ((Transaction.move t).2 ≠ none ↔
      (t.status = TransactionStatus.COMPLETED ∨ t.status = TransactionStatus.ERROR ∨
       t.status = TransactionStatus.REFUNDED)) ∧
    ((t.status = TransactionStatus.COMPLETED ∨ t.status = TransactionStatus.ERROR ∨
      t.status = TransactionStatus.REFUNDED) →
      Transaction.move t = (t, some (DomainError.InvalidStateTransitionError
        "Transaction is not in a state that can be moved."))) ∧
    (Transaction.is_valid_state (some t.status) (some t.location) = true →
     ¬(t.status = TransactionStatus.COMPLETED ∨ t.status = TransactionStatus.ERROR ∨
       t.status = TransactionStatus.REFUNDED) →
      ((t.location = TransactionLocation.ORIGINATOR_BANK →
        Transaction.move t = ({ t with location := TransactionLocation.ROUTABLE }, none)) ∧
       (t.status = TransactionStatus.PROCESSING ∧ t.location = TransactionLocation.ROUTABLE →
        Transaction.move t =
          ({ t with status := TransactionStatus.COMPLETED,
                    location := TransactionLocation.DESTINATION_BANK }, none)) ∧
       (t.status = TransactionStatus.FIXING ∧ t.location = TransactionLocation.ROUTABLE →
        Transaction.move t = ({ t with status := TransactionStatus.PROCESSING }, none)) ∧
       (t.status = TransactionStatus.REFUNDING ∧ t.location = TransactionLocation.ROUTABLE →
        Transaction.move t =
          ({ t with status := TransactionStatus.REFUNDED,
                    location := TransactionLocation.ORIGINATOR_BANK }, none)))) := by
  refine ⟨?_, ?_, ?_⟩
  · rw [Ne, move_snd_eq_none_iff, not_not]
  · intro h
    unfold Transaction.move
    rw [if_pos h]
  · intro _ hterm
    refine ⟨?_, ?_, ?_, ?_⟩
    · intro h
      unfold Transaction.move
      rw [if_neg hterm]
      dsimp only
      rw [if_pos h]
    · rintro ⟨hs, hl⟩
      unfold Transaction.move
      rw [if_neg hterm]
      dsimp only
      rw [if_neg (by rw [hl]; decide), if_pos hl, if_pos hs]
    · rintro ⟨hs, hl⟩
      unfold Transaction.move
      rw [if_neg hterm]
      dsimp only
      rw [if_neg (by rw [hl]; decide), if_pos hl, if_neg (by rw [hs]; decide), if_pos hs]
    · rintro ⟨hs, hl⟩
      unfold Transaction.move
      rw [if_neg hterm]
      dsimp only
      rw [if_neg (by rw [hl]; decide), if_pos hl, if_neg (by rw [hs]; decide),
        if_neg (by rw [hs]; decide), if_pos hs]

lemma is_valid_start_state_falsy (st loc : Option String)
    (h : (st = none ∨ st = some "") ∨ (loc = none ∨ loc = some "")) :
    Transaction.is_valid_start_state st loc = false := by
  rcases h with (h | h) | (h | h) <;> subst h
  · rfl
  · cases loc with
    | none => rfl
    | some l =>
      unfold Transaction.is_valid_start_state
      rw [if_pos]
      simp [Transaction.is_valid_state]
  · cases st <;> rfl
  · cases st with
    | none => rfl
    | some s =>
      unfold Transaction.is_valid_start_state
      rw [if_pos]
      simp [Transaction.is_valid_state]

lemma is_valid_start_state_iff_mem (st loc : Option String) :
    Transaction.is_valid_start_state st loc = true ↔
      (st, loc) ∈
        ([(some TransactionStatus.PROCESSING, some TransactionLocation.ORIGINATOR_BANK),
          (some TransactionStatus.REFUNDING, some TransactionLocation.ROUTABLE),
          (some TransactionStatus.FIXING, some TransactionLocation.ROUTABLE)] :
          List (Option String × Option String)) := by
  cases st with
  | none => simp [is_valid_start_state_falsy none loc (Or.inl (Or.inl rfl))]
  | some s =>
    cases loc with
    | none =>
      simp [is_valid_start_state_falsy (some s) none (Or.inr (Or.inl rfl))]
    | some l =>
      rw [is_valid_start_state_some_iff]
      simp only [Transaction.valid_start_states, List.mem_cons, List.not_mem_nil,
        Prod.mk.injEq, Option.some.injEq, or_false]

lemma create_transaction_snd_eq_none_iff (s : Sys) (st loc : Option String) :
    (Item.create_transaction s st loc).2 = none ↔
      Transaction.is_valid_start_state st loc = true := by
  unfold Item.create_transaction
  split
  · rename_i h
    simp [is_valid_start_state_falsy st loc h]
  · split
    · rename_i h2
      simp [h2]
    · rename_i h2
      simp only [Bool.not_eq_false] at h2
      simp [h2]

lemma create_transaction_fail (s : Sys) (st loc : Option String) :
    (Item.create_transaction s st loc).2 = none ∨
    ((Item.create_transaction s st loc).1 = s ∧
     ∃ m, (Item.create_transaction s st loc).2 = some (DomainError.InvalidStateError m)) := by
  unfold Item.create_transaction
  split
  · exact .inr ⟨rfl, _, rfl⟩
  · split
    · exact .inr ⟨rfl, _, rfl⟩
    · exact .inl rfl

/-- C4: `error` succeeds exactly from (PROCESSING, ROUTABLE), transitioning
to (ERROR, ROUTABLE); from every other state it fails with
`InvalidStateTransitionError` and leaves the Transaction unchanged. -/
theorem claim_C4_error_transition (t : Transaction) :
    ((t.status = TransactionStatus.PROCESSING ∧ t.location = TransactionLocation.ROUTABLE) →
      Transaction.error t =
        ({ t with status := TransactionStatus.ERROR,
                  location := TransactionLocation.ROUTABLE }, none)) ∧
    (¬(t.status = TransactionStatus.PROCESSING ∧ t.location = TransactionLocation.ROUTABLE) →
      Transaction.error t =
        (t, some (DomainError.InvalidStateTransitionError
          "Transaction is not in a state that can be marked as errored."))) := by
  constructor <;> intro h <;> unfold Transaction.error
  · rw [if_neg (not_not_intro h)]
  · rw [if_pos h]

/-- Witness for C4 at the concrete state (PROCESSING, ROUTABLE). -/
theorem claim_C4_error_transition_witness :
    Transaction.error
        { id := 0, status := TransactionStatus.PROCESSING,
          location := TransactionLocation.ROUTABLE, is_active := true } =
      ({ id := 0, status := TransactionStatus.ERROR,
         location := TransactionLocation.ROUTABLE, is_active := true }, none) :=
  (claim_C4_error_transition _).1 ⟨rfl, rfl⟩

/-- Witness for C2 at the concrete state (PROCESSING, ORIGINATOR_BANK). -/
theorem claim_C2_move_transitions_witness :
    Transaction.move
        { id := 0, status := TransactionStatus.PROCESSING,
          location := TransactionLocation.ORIGINATOR_BANK, is_active := true } =
      ({ id := 0, status := TransactionStatus.PROCESSING,
         location := TransactionLocation.ROUTABLE, is_active := true }, none) :=
  ((claim_C2_move_transitions _).2.2 (by decide) (by decide)).1 rfl

/-- C3: `create_transaction` succeeds exactly for the three start pairs
(PROCESSING, ORIGINATOR_BANK), (REFUNDING, ROUTABLE) and (FIXING, ROUTABLE);
every other pair — the other valid pairs, invalid pairs, and missing or
empty values — fails with `InvalidStateError` and leaves the system (in
particular the ledger) unchanged. -/
theorem claim_C3_create_start_states (s : Sys) (st loc : Option String) :
    ((Item.create_transaction s st loc).2 = none ↔
      (st, loc) ∈
        ([(some TransactionStatus.PROCESSING, some TransactionLocation.ORIGINATOR_BANK),
          (some TransactionStatus.REFUNDING, some TransactionLocation.ROUTABLE),
          (some TransactionStatus.FIXING, some TransactionLocation.ROUTABLE)] :
          List (Option String × Option String))) ∧
    ((Item.create_transaction s st loc).2 ≠ none →
      (Item.create_transaction s st loc).1 = s ∧
      ∃ m, (Item.create_transaction s st loc).2 = some (DomainError.InvalidStateError m)) := by
  constructor
  · rw [create_transaction_snd_eq_none_iff, is_valid_start_state_iff_mem]
  · intro h
    rcases create_transaction_fail s st loc with h2 | h2
    · exact absurd h2 h
    · exact h2

/-- Witness for C3 at the invalid start pair (COMPLETED, DESTINATION_BANK). -/
theorem claim_C3_create_start_states_witness :
    (Item.create_transaction (initSys "item" 0) (some TransactionStatus.COMPLETED)
        (some TransactionLocation.DESTINATION_BANK)).1 = initSys "item" 0 ∧
    ∃ m, (Item.create_transaction (initSys "item" 0) (some TransactionStatus.COMPLETED)
        (some TransactionLocation.DESTINATION_BANK)).2 =
      some (DomainError.InvalidStateError m) :=
  (claim_C3_create_start_states _ _ _).2 (by decide)

lemma apply_fail_frame (s : Sys) (o : Op) :
    (apply s o).2 = none ∨ (apply s o).1 = s := by
  cases o with
  | create_transaction st loc =>
    rcases create_transaction_fail s st loc with h | ⟨h1, _⟩
    · exact .inl h
    · exact .inr h1
  | begin_refund =>
    show (Item.begin_refund s).2 = none ∨ (Item.begin_refund s).1 = s
    unfold Item.begin_refund
    split
    · exact .inr rfl
    · split
      · exact .inr rfl
      · rcases create_transaction_fail s _ _ with h | ⟨h1, _⟩
        · exact .inl h
        · exact .inr h1
  | fix =>
    show (Item.fix s).2 = none ∨ (Item.fix s).1 = s
    unfold Item.fix
    split
    · exact .inr rfl
    · split
      · exact .inr rfl
      · rcases create_transaction_fail s _ _ with h | ⟨h1, _⟩
        · exact .inl h
        · exact .inr h1
  | move =>
    show (Item.move s).2 = none ∨ (Item.move s).1 = s
    unfold Item.move
    split
    · exact .inr rfl
    · split
      · exact .inr rfl
      · exact .inl rfl
  | error =>
    show (Item.error s).2 = none ∨ (Item.error s).1 = s
    unfold Item.error
    split
    · exact .inr rfl
    · split
      · exact .inr rfl
      · exact .inl rfl

/-- C10: whenever a public operation fails with a validation error, the
whole system state is unchanged: no Transaction is created or mutated and
the Item's state, flag and pointer are untouched. -/
theorem claim_C10_fail_no_mutation (s : Sys) (o : Op) (e : DomainError)
    (h : (apply s o).2 = some e) : (apply s o).1 = s := by
  rcases apply_fail_frame s o with h2 | h2
  · rw [h] at h2
    cases h2
  · exact h2

/-- Witness for C10: `move` on an Item with no Transaction. -/
theorem claim_C10_fail_no_mutation_witness :
    (apply (initSys "item" 0) Op.move).1 = initSys "item" 0 :=
  claim_C10_fail_no_mutation _ _
    (DomainError.InvalidStateTransitionError
      "Item<item> does not have a Transaction that can be moved") (by decide)

lemma activeTransaction_eq_none (s : Sys) (h : s.item.transaction = none) :
    Sys.activeTransaction s = none := by
  unfold Sys.activeTransaction
  rw [h]

/-- C6 counterexample: on an Item with no Transaction, `begin_refund`
raises `InvalidStateTransitionError` — the very same exception class the
wrong-status case raises — so no distinct `NoActiveTransaction` error
exists in the code. -/
theorem claim_C6_counterexample :
    (Item.begin_refund (initSys "item" 42)).2 =
      some (DomainError.InvalidStateTransitionError
        "Item<item> does not have a Transaction that can be refunded") ∧
    (Item.begin_refund (Item.create_transaction (initSys "item" 42)
        (some TransactionStatus.PROCESSING)
        (some TransactionLocation.ORIGINATOR_BANK)).1).2 =
      some (DomainError.InvalidStateTransitionError
        "Transaction Transaction<0> is not in a state that can be refunded") := by
  constructor <;> decide

/-- C6 (amended): on an Item with no Transaction, `move`, `error`, `fix`
and `begin_refund` all fail, leaving the state unchanged, with
`InvalidStateTransitionError` carrying a "does not have a Transaction"
message — the same exception class as the wrong-status failures, which
differ only in their message. -/
theorem claim_C6_no_transaction_guard (s : Sys) (h : s.item.transaction = none) :
    Item.move s = (s, some (DomainError.InvalidStateTransitionError
      (Item.strRepr s.item ++ " does not have a Transaction that can be moved"))) ∧
    Item.error s = (s, some (DomainError.InvalidStateTransitionError
      (Item.strRepr s.item ++ " does not have a Transaction that can be errored"))) ∧
    Item.fix s = (s, some (DomainError.InvalidStateTransitionError
      (Item.strRepr s.item ++ " does not have a Transaction that can be fixed"))) ∧
    Item.begin_refund s = (s, some (DomainError.InvalidStateTransitionError
      (Item.strRepr s.item ++ " does not have a Transaction that can be refunded"))) := by
  have ha := activeTransaction_eq_none s h
  refine ⟨?_, ?_, ?_, ?_⟩
  · unfold Item.move
    rw [ha]
  · unfold Item.error
    rw [ha]
  · unfold Item.fix
    rw [ha]
  · unfold Item.begin_refund
    rw [ha]

/-- Witness for the amended C6 at a freshly created Item. -/
theorem claim_C6_no_transaction_guard_witness :
    Item.move (initSys "item" 0) = (initSys "item" 0,
      some (DomainError.InvalidStateTransitionError
        "Item<item> does not have a Transaction that can be moved")) :=
  (claim_C6_no_transaction_guard (initSys "item" 0) rfl).1

/-- C8: the Item Aggregator skips the write when the computed state equals
the current one; the first `has_errored` flip forces a write even when the
state field is unchanged; and a non-new status other than ERROR, COMPLETED
or REFUNDED leaves the Item (and its state) untouched. -/
theorem claim_C8_aggregator_writes (t : Transaction) (item : Item)
    (h : t.is_active = true) :
    ((if item.has_errored then ItemState.CORRECTING else ItemState.PROCESSING) = item.state →
      Transaction.update_item_status t item true = (item, false)) ∧
    (t.status = TransactionStatus.ERROR → item.has_errored = true →
      ItemState.ERROR = item.state →
      Transaction.update_item_status t item false = (item, false)) ∧
    ((t.status = TransactionStatus.COMPLETED ∨ t.status = TransactionStatus.REFUNDED) →
      ItemState.RESOLVED = item.state →
      Transaction.update_item_status t item false = (item, false)) ∧
    (t.status = TransactionStatus.ERROR → item.has_errored = false →
      Transaction.update_item_status t item false =
        ({ item with has_errored := true, state := ItemState.ERROR }, true)) ∧
    (t.status ≠ TransactionStatus.ERROR → t.status ≠ TransactionStatus.COMPLETED →
      t.status ≠ TransactionStatus.REFUNDED →
      Transaction.update_item_status t item false = (item, false)) := by
  refine ⟨?_, ?_, ?_, ?_, ?_⟩
  · intro hsame
    by_cases he : item.has_errored = true
    · rw [if_pos he] at hsame
      unfold Transaction.update_item_status
      simp [h, he, ← hsame]
    · rw [if_neg he] at hsame
      unfold Transaction.update_item_status
      simp [h, he, ← hsame]
  · intro hs he hsame
    unfold Transaction.update_item_status
    simp [h, hs, he, ← hsame]
  · intro hs hsame
    unfold Transaction.update_item_status
    rcases hs with hs | hs <;>
      simp [h, hs, ← hsame, TransactionStatus.COMPLETED, TransactionStatus.REFUNDED,
        TransactionStatus.ERROR]
  · intro hs he
    unfold Transaction.update_item_status
    simp [h, hs, he]
  · intro h1 h2 h3
    unfold Transaction.update_item_status
    simp [h, h1, h2, h3]

/-- Witness for C8: the `has_errored` flip forces a write even though the
Item's state is already ERROR. -/
theorem claim_C8_aggregator_writes_witness :
    Transaction.update_item_status
        { id := 0, status := TransactionStatus.ERROR,
          location := TransactionLocation.ROUTABLE, is_active := true }
        { id := "item", amount := 0, transaction := some 0,
          state := ItemState.ERROR, has_errored := false } false =
      ({ id := "item", amount := 0, transaction := some 0,
         state := ItemState.ERROR, has_errored := true }, true) :=
  (claim_C8_aggregator_writes _ _ rfl).2.2.2.1 rfl rfl

lemma mark_inactive_eq (t : Transaction) (item : Item) :
    Transaction.mark_inactive t item = ({ t with is_active := false }, item, false) := rfl

/-- The pointwise effect of the deactivation loop on one ledger row. -/
def deactFun (nid : Nat) : Transaction → Transaction :=
  fun e => if e.is_active = true ∧ e.id ≠ nid then { e with is_active := false } else e

lemma deactivate_others_spec (nid : Nat) (l : List Transaction) (item : Item) :
    deactivate_others nid l item = (l.map (deactFun nid), item) := by
  induction l with
  | nil => rfl
  | cons e rest ih =>
    unfold deactivate_others
    rw [mark_inactive_eq]
    by_cases hc : e.is_active = true ∧ e.id ≠ nid
    · rw [if_pos hc]
      simp [ih, deactFun, hc]
    · rw [if_neg hc]
      simp only [ih, List.map_cons]
      congr 1
      unfold deactFun
      rw [if_neg hc]

lemma update_item_status_fst_frame (t : Transaction) (item : Item) (b : Bool) :
    (Transaction.update_item_status t item b).1.id = item.id ∧
    (Transaction.update_item_status t item b).1.amount = item.amount ∧
    (Transaction.update_item_status t item b).1.transaction = item.transaction := by
  refine ⟨?_, ?_, ?_⟩ <;>
    (unfold Transaction.update_item_status
     repeat' split
     all_goals try rfl
     all_goals try simp_all
     all_goals (split <;> rfl))

lemma update_item_status_new_fst (t : Transaction) (item : Item)
    (h : t.is_active = true) :
    (Transaction.update_item_status t item true).1 =
      { item with state := if item.has_errored then ItemState.CORRECTING
                           else ItemState.PROCESSING } := by
  obtain ⟨iid, iam, itr, ist, ihe⟩ := item
  unfold Transaction.update_item_status
  by_cases he : ihe = true
  · subst he
    by_cases hs : ItemState.CORRECTING = ist
    · subst hs
      simp [h]
    · simp [h, hs]
  · rw [Bool.not_eq_true] at he
    subst he
    by_cases hs : ItemState.PROCESSING = ist
    · subst hs
      simp [h]
    · simp [h, hs]

lemma update_item_status_has_errored_iff (t : Transaction) (item : Item) (b : Bool) :
    ((Transaction.update_item_status t item b).1.has_errored = true ↔
      (item.has_errored = true ∨
       (t.is_active = true ∧ b = false ∧ t.status = TransactionStatus.ERROR))) := by
  unfold Transaction.update_item_status
  repeat' split
  all_goals try simp_all
  all_goals (split <;> simp_all)

/-- The new Transaction row `create_transaction` builds. -/
def newTransaction (s : Sys) (st loc : Option String) : Transaction :=
  { id := s.nextId, status := st.getD "", location := loc.getD "", is_active := true }

lemma create_transaction_success_eq (s : Sys) (st loc : Option String)
    (h : Transaction.is_valid_start_state st loc = true) :
    Item.create_transaction s st loc =
      ({ item := { (Transaction.update_item_status (newTransaction s st loc) s.item true).1
                     with transaction := some s.nextId },
         transactions := (s.transactions ++ [newTransaction s st loc]).map (deactFun s.nextId),
         nextId := s.nextId + 1 }, none) := by
  have hf : ¬((st = none ∨ st = some "") ∨ (loc = none ∨ loc = some "")) := by
    intro hfal
    rw [is_valid_start_state_falsy st loc hfal] at h
    cases h
  unfold Item.create_transaction
  rw [if_neg hf, if_neg (by simp [h])]
  dsimp only
  rw [deactivate_others_spec]
  rfl

lemma create_transaction_success_active (s : Sys) (st loc : Option String)
    (h : Transaction.is_valid_start_state st loc = true)
    (hfresh : ∀ t ∈ s.transactions, t.id < s.nextId) :
    (Item.create_transaction s st loc).1.transactions.filter (fun t => t.is_active) =
      [newTransaction s st loc] := by
  rw [create_transaction_success_eq s st loc h]
  dsimp only
  rw [List.map_append, List.filter_append]
  have h1 : (s.transactions.map (deactFun s.nextId)).filter (fun t => t.is_active) = [] := by
    rw [List.filter_eq_nil_iff]
    intro a ha
    rcases List.mem_map.mp ha with ⟨e, he, rfl⟩
    have hne : e.id ≠ s.nextId := Nat.ne_of_lt (hfresh e he)
    unfold deactFun
    by_cases hact : e.is_active = true
    · rw [if_pos ⟨hact, hne⟩]
      simp
    · rw [if_neg (fun hc => hact hc.1)]
      simpa using hact
  rw [h1]
  simp [deactFun, newTransaction]

lemma create_transaction_success_item (s : Sys) (st loc : Option String)
    (h : Transaction.is_valid_start_state st loc = true) :
    (Item.create_transaction s st loc).1.item =
      { s.item with
        transaction := some s.nextId,
        state := if s.item.has_errored then ItemState.CORRECTING else ItemState.PROCESSING } := by
  rw [create_transaction_success_eq s st loc h]
  dsimp only
  rw [update_item_status_new_fst _ _ rfl]

lemma create_transaction_success_last (s : Sys) (st loc : Option String)
    (h : Transaction.is_valid_start_state st loc = true) :
    (Item.create_transaction s st loc).1.transactions.getLast? =
      some (newTransaction s st loc) := by
  rw [create_transaction_success_eq s st loc h]
  dsimp only
  rw [List.map_append, List.getLast?_append_of_ne_nil _ (by simp)]
  simp [deactFun, newTransaction]

/-- The reachable-state invariant: ledger ids are below the fresh counter
and pairwise distinct, at most one row is active, and the Item's pointer,
when set, names an active row of the ledger. -/
def Inv (s : Sys) : Prop :=
  (∀ t ∈ s.transactions, t.id < s.nextId) ∧
  s.transactions.Pairwise (fun a b => a.id ≠ b.id) ∧
  (s.transactions.filter (fun t => t.is_active)).length ≤ 1 ∧
  (∀ tid, s.item.transaction = some tid →
    ∃ t, s.transactions.find? (fun e => e.id == tid) = some t ∧
      t.is_active = true ∧ t.id = tid)

lemma Inv_initSys (itemId : String) (amount : Int) : Inv (initSys itemId amount) := by
  refine ⟨?_, ?_, ?_, ?_⟩ <;> simp [initSys]

lemma deactFun_id (nid : Nat) (e : Transaction) : (deactFun nid e).id = e.id := by
  unfold deactFun
  split <;> rfl

lemma activeTransaction_eq_some (s : Sys) (t : Transaction)
    (h : Sys.activeTransaction s = some t) :
    ∃ tid, s.item.transaction = some tid ∧
      s.transactions.find? (fun e => e.id == tid) = some t := by
  unfold Sys.activeTransaction at h
  cases hp : s.item.transaction with
  | none => rw [hp] at h; cases h
  | some tid => rw [hp] at h; exact ⟨tid, rfl, h⟩

lemma eq_of_mem_of_id_eq {l : List Transaction}
    (hnd : l.Pairwise (fun a b => a.id ≠ b.id)) {e t : Transaction}
    (he : e ∈ l) (ht : t ∈ l) (h : e.id = t.id) : e = t := by
  induction l with
  | nil => cases he
  | cons a r ih =>
    rcases List.pairwise_cons.mp hnd with ⟨ha, hr⟩
    rcases List.mem_cons.mp he with rfl | he'
    · rcases List.mem_cons.mp ht with rfl | ht'
      · rfl
      · exact absurd h (ha t ht')
    · rcases List.mem_cons.mp ht with rfl | ht'
      · exact absurd h.symm (ha e he')
      · exact ih hr he' ht'

lemma filter_length_map_pres (g : Transaction → Transaction) (l : List Transaction)
    (hp : ∀ e ∈ l, (g e).is_active = e.is_active) :
    ((l.map g).filter (fun t => t.is_active)).length =
      (l.filter (fun t => t.is_active)).length := by
  induction l with
  | nil => rfl
  | cons e r ih =>
    have hge := hp e (List.mem_cons_self e r)
    have ihr := ih (fun x hx => hp x (List.mem_cons_of_mem e hx))
    by_cases ha : e.is_active = true
    · simp [List.filter_cons, hge, ha, ihr]
    · simp only [Bool.not_eq_true] at ha
      simp [List.filter_cons, hge, ha, ihr]

lemma find?_map_save (l : List Transaction) (tid : Nat) (t1 : Transaction)
    (h1 : t1.id = tid) (h2 : (l.find? (fun e => e.id == tid)).isSome) :
    (l.map (fun e => if e.id = t1.id then t1 else e)).find? (fun e => e.id == tid) =
      some t1 := by
  induction l with
  | nil => cases h2
  | cons e r ih =>
    by_cases he : e.id = tid
    · rw [List.map_cons, if_pos (by rw [he, h1]), List.find?_cons_of_pos]
      simp [h1]
    · rw [List.map_cons, if_neg (by rw [h1]; exact he),
        List.find?_cons_of_neg _ (by simpa using he)]
      apply ih
      rw [List.find?_cons_of_neg _ (by simpa using he)] at h2
      exact h2

lemma save_update_Inv (s : Sys) (t t1 : Transaction) (h : Inv s)
    (hfind : Sys.activeTransaction s = some t)
    (hid : t1.id = t.id) (hact : t1.is_active = t.is_active) :
    Inv { Sys.saveTransaction s t1 with
          item := (Transaction.update_item_status t1
            (Sys.saveTransaction s t1).item false).1 } := by
  obtain ⟨hfresh, hnd, hcount, hptr⟩ := h
  obtain ⟨tid, hp, hf⟩ := activeTransaction_eq_some s t hfind
  obtain ⟨t', hf', hact', hid'⟩ := hptr tid hp
  rw [hf] at hf'
  injection hf' with hf'
  subst hf'
  have htm : t ∈ s.transactions := List.mem_of_find?_eq_some hf
  have hsave_id : ∀ e : Transaction,
      ((fun e => if e.id = t1.id then t1 else e) e).id = e.id := by
    intro e
    dsimp only
    split
    · rename_i hcond
      exact hcond.symm
    · rfl
  have hsave_act : ∀ e ∈ s.transactions,
      ((fun e => if e.id = t1.id then t1 else e) e).is_active = e.is_active := by
    intro e he
    dsimp only
    split
    · rename_i hcond
      have het : e = t := eq_of_mem_of_id_eq hnd he htm (by rw [hcond, hid])
      rw [het, hact]
    · rfl
  refine ⟨?_, ?_, ?_, ?_⟩
  · show ∀ x ∈ s.transactions.map (fun e => if e.id = t1.id then t1 else e),
      x.id < s.nextId
    intro x hx
    rcases List.mem_map.mp hx with ⟨e, he, rfl⟩
    rw [hsave_id e]
    exact hfresh e he
  · show (s.transactions.map (fun e => if e.id = t1.id then t1 else e)).Pairwise
      (fun a b => a.id ≠ b.id)
    rw [List.pairwise_map]
    exact hnd.imp (fun {a b} hab => by rw [hsave_id a, hsave_id b]; exact hab)
  · show ((s.transactions.map (fun e => if e.id = t1.id then t1 else e)).filter
      (fun t => t.is_active)).length ≤ 1
    rw [filter_length_map_pres _ _ hsave_act]
    exact hcount
  · intro tid2 hp2
    have hp2' : (Transaction.update_item_status t1 s.item false).1.transaction =
        some tid2 := hp2
    rw [(update_item_status_fst_frame t1 s.item false).2.2, hp] at hp2'
    injection hp2' with hp2'
    subst hp2'
    refine ⟨t1, ?_, hact.trans hact', hid.trans hid'⟩
    show (s.transactions.map (fun e => if e.id = t1.id then t1 else e)).find?
        (fun e => e.id == tid) = some t1
    exact find?_map_save s.transactions tid t1 (hid.trans hid') (by rw [hf]; rfl)

lemma move_fst_id (t : Transaction) : (Transaction.move t).1.id = t.id := by
  unfold Transaction.move
  split
  · rfl
  · dsimp only
    repeat' split
    all_goals rfl

lemma move_fst_is_active (t : Transaction) :
    (Transaction.move t).1.is_active = t.is_active := by
  unfold Transaction.move
  split
  · rfl
  · dsimp only
    repeat' split
    all_goals rfl

lemma error_fst_id (t : Transaction) : (Transaction.error t).1.id = t.id := by
  unfold Transaction.error
  split <;> rfl

lemma error_fst_is_active (t : Transaction) :
    (Transaction.error t).1.is_active = t.is_active := by
  unfold Transaction.error
  split <;> rfl

lemma Inv_move (s : Sys) (h : Inv s) : Inv (Item.move s).1 := by
  unfold Item.move
  split
  · exact h
  · rename_i t hA
    split
    · exact h
    · rename_i t1 hm
      have h1 : t1.id = t.id := by rw [← move_fst_id t, hm]
      have h2 : t1.is_active = t.is_active := by rw [← move_fst_is_active t, hm]
      exact save_update_Inv s t t1 h hA h1 h2

lemma Inv_error (s : Sys) (h : Inv s) : Inv (Item.error s).1 := by
  unfold Item.error
  split
  · exact h
  · rename_i t hA
    split
    · exact h
    · rename_i t1 hm
      have h1 : t1.id = t.id := by rw [← error_fst_id t, hm]
      have h2 : t1.is_active = t.is_active := by rw [← error_fst_is_active t, hm]
      exact save_update_Inv s t t1 h hA h1 h2

lemma Inv_create (s : Sys) (st loc : Option String) (h : Inv s) :
    Inv (Item.create_transaction s st loc).1 := by
  by_cases hv : Transaction.is_valid_start_state st loc = true
  · obtain ⟨hfresh, hnd, hcount, hptr⟩ := h
    refine ⟨?_, ?_, ?_, ?_⟩
    · rw [create_transaction_success_eq s st loc hv]
      intro x hx
      dsimp only at hx ⊢
      rw [List.map_append] at hx
      rcases List.mem_append.mp hx with hx | hx
      · rcases List.mem_map.mp hx with ⟨e, he, rfl⟩
        rw [deactFun_id]
        exact Nat.lt_succ_of_lt (hfresh e he)
      · rcases List.mem_map.mp hx with ⟨e, he, rfl⟩
        rw [List.mem_singleton] at he
        subst he
        rw [deactFun_id]
        exact Nat.lt_succ_self _
    · rw [create_transaction_success_eq s st loc hv]
      dsimp only
      rw [List.map_append, List.pairwise_append]
      refine ⟨?_, ?_, ?_⟩
      · rw [List.pairwise_map]
        exact hnd.imp (fun {a b} hab => by rw [deactFun_id, deactFun_id]; exact hab)
      · simp
      · intro a ha b hb
        rcases List.mem_map.mp ha with ⟨e, he, rfl⟩
        rcases List.mem_map.mp hb with ⟨x, hx, rfl⟩
        rw [List.mem_singleton] at hx
        subst hx
        rw [deactFun_id, deactFun_id]
        exact Nat.ne_of_lt (hfresh e he)
    · rw [create_transaction_success_active s st loc hv hfresh]
      simp
    · rw [create_transaction_success_eq s st loc hv]
      intro tid2 hp2
      dsimp only at hp2 ⊢
      injection hp2 with hp2
      subst hp2
      refine ⟨newTransaction s st loc, ?_, rfl, rfl⟩
      rw [List.map_append, List.find?_append]
      have h1 : (s.transactions.map (deactFun s.nextId)).find?
          (fun e => e.id == s.nextId) = none := by
        rw [List.find?_eq_none]
        intro x hx
        rcases List.mem_map.mp hx with ⟨e, he, rfl⟩
        simp [deactFun_id, Nat.ne_of_lt (hfresh e he)]
      rw [h1]
      simp [deactFun, newTransaction]
  · rcases create_transaction_fail s st loc with hs | ⟨h1, _⟩
    · rw [create_transaction_snd_eq_none_iff] at hs
      exact absurd hs hv
    · rw [h1]
      exact h

lemma Inv_begin_refund (s : Sys) (h : Inv s) : Inv (Item.begin_refund s).1 := by
  unfold Item.begin_refund
  cases Sys.activeTransaction s with
  | none => exact h
  | some t =>
    by_cases hst : t.status ≠ TransactionStatus.ERROR
    · dsimp only
      rw [if_pos hst]
      exact h
    · dsimp only
      rw [if_neg hst]
      exact Inv_create s _ _ h

lemma Inv_fix (s : Sys) (h : Inv s) : Inv (Item.fix s).1 := by
  unfold Item.fix
  cases Sys.activeTransaction s with
  | none => exact h
  | some t =>
    by_cases hst : t.status ≠ TransactionStatus.ERROR
    · dsimp only
      rw [if_pos hst]
      exact h
    · dsimp only
      rw [if_neg hst]
      exact Inv_create s _ _ h

lemma Inv_apply (s : Sys) (o : Op) (h : Inv s) : Inv (apply s o).1 := by
  cases o with
  | create_transaction st loc => exact Inv_create s st loc h
  | begin_refund => exact Inv_begin_refund s h
  | fix => exact Inv_fix s h
  | move => exact Inv_move s h
  | error => exact Inv_error s h

lemma Inv_runOps (s : Sys) (ops : List Op) (h : Inv s) : Inv (runOps s ops) := by
  induction ops generalizing s with
  | nil => exact h
  | cons o rest ih =>
    show Inv (List.foldl (fun s o => (apply s o).1) s (o :: rest))
    rw [List.foldl_cons]
    exact ih _ (Inv_apply s o h)

lemma create_has_errored (s : Sys) (st loc : Option String) :
    (Item.create_transaction s st loc).1.item.has_errored = s.item.has_errored := by
  by_cases hv : Transaction.is_valid_start_state st loc = true
  · rw [create_transaction_success_item s st loc hv]
  · rcases create_transaction_fail s st loc with hs | ⟨h1, _⟩
    · rw [create_transaction_snd_eq_none_iff] at hs
      exact absurd hs hv
    · rw [h1]

lemma begin_refund_cases (s : Sys) :
    (∃ e, Item.begin_refund s = (s, some e)) ∨
      Item.begin_refund s = Item.create_transaction s (some TransactionStatus.REFUNDING)
        (some TransactionLocation.ROUTABLE) := by
  unfold Item.begin_refund
  split
  · exact .inl ⟨_, rfl⟩
  · split
    · exact .inl ⟨_, rfl⟩
    · exact .inr rfl

lemma fix_cases (s : Sys) :
    (∃ e, Item.fix s = (s, some e)) ∨
      Item.fix s = Item.create_transaction s (some TransactionStatus.FIXING)
        (some TransactionLocation.ROUTABLE) := by
  unfold Item.fix
  split
  · exact .inl ⟨_, rfl⟩
  · split
    · exact .inl ⟨_, rfl⟩
    · exact .inr rfl

lemma begin_refund_success_eq (s : Sys) (h : (Item.begin_refund s).2 = none) :
    Item.begin_refund s = Item.create_transaction s (some TransactionStatus.REFUNDING)
      (some TransactionLocation.ROUTABLE) := by
  rcases begin_refund_cases s with ⟨e, he⟩ | he
  · rw [he] at h
    cases h
  · exact he

lemma fix_success_eq (s : Sys) (h : (Item.fix s).2 = none) :
    Item.fix s = Item.create_transaction s (some TransactionStatus.FIXING)
      (some TransactionLocation.ROUTABLE) := by
  rcases fix_cases s with ⟨e, he⟩ | he
  · rw [he] at h
    cases h
  · exact he

lemma move_success_status_ne_error (t t1 : Transaction)
    (hm : Transaction.move t = (t1, none)) : t1.status ≠ TransactionStatus.ERROR := by
  unfold Transaction.move at hm
  split at hm
  · exact absurd (congrArg Prod.snd hm) (by simp)
  · rename_i hterm
    have hne : t.status ≠ TransactionStatus.ERROR := fun hh => hterm (Or.inr (Or.inl hh))
    have h1 := congrArg Prod.fst hm
    dsimp at h1
    rw [← h1]
    repeat' split
    all_goals first
      | exact hne
      | simp [TransactionStatus.PROCESSING, TransactionStatus.COMPLETED,
          TransactionStatus.REFUNDED, TransactionStatus.ERROR]

lemma error_success_shape (t t1 : Transaction)
    (hm : Transaction.error t = (t1, none)) :
    t1.status = TransactionStatus.ERROR ∧ t1.is_active = t.is_active := by
  unfold Transaction.error at hm
  split at hm
  · exact absurd (congrArg Prod.snd hm) (by simp)
  · have h1 := congrArg Prod.fst hm
    dsimp at h1
    rw [← h1]
    exact ⟨rfl, rfl⟩

lemma has_errored_mono (s : Sys) (o : Op) (h : s.item.has_errored = true) :
    (apply s o).1.item.has_errored = true := by
  cases o with
  | create_transaction st loc =>
    show (Item.create_transaction s st loc).1.item.has_errored = true
    rw [create_has_errored]
    exact h
  | begin_refund =>
    show (Item.begin_refund s).1.item.has_errored = true
    rcases begin_refund_cases s with ⟨e, he⟩ | he
    · rw [he]
      exact h
    · rw [he, create_has_errored]
      exact h
  | fix =>
    show (Item.fix s).1.item.has_errored = true
    rcases fix_cases s with ⟨e, he⟩ | he
    · rw [he]
      exact h
    · rw [he, create_has_errored]
      exact h
  | move =>
    show (Item.move s).1.item.has_errored = true
    unfold Item.move
    split
    · exact h
    · split
      · exact h
      · dsimp only [Sys.saveTransaction]
        rw [update_item_status_has_errored_iff]
        exact Or.inl h
  | error =>
    show (Item.error s).1.item.has_errored = true
    unfold Item.error
    split
    · exact h
    · split
      · exact h
      · dsimp only [Sys.saveTransaction]
        rw [update_item_status_has_errored_iff]
        exact Or.inl h

lemma has_errored_mono_runOps (s : Sys) (ops : List Op) (h : s.item.has_errored = true) :
    (runOps s ops).item.has_errored = true := by
  induction ops generalizing s with
  | nil => exact h
  | cons o rest ih =>
    show (List.foldl (fun s o => (apply s o).1) s (o :: rest)).item.has_errored = true
    rw [List.foldl_cons]
    exact ih _ (has_errored_mono s o h)

lemma has_errored_apply_iff (s : Sys) (hInv : Inv s) (o : Op) :
    ((apply s o).1.item.has_errored = true ↔
      (s.item.has_errored = true ∨ (o = Op.error ∧ (apply s o).2 = none))) := by
  cases o with
  | create_transaction st loc =>
    show (Item.create_transaction s st loc).1.item.has_errored = true ↔
      (s.item.has_errored = true ∨
        (Op.create_transaction st loc = Op.error ∧ (Item.create_transaction s st loc).2 = none))
    rw [create_has_errored]
    simp
  | begin_refund =>
    show (Item.begin_refund s).1.item.has_errored = true ↔
      (s.item.has_errored = true ∨ (Op.begin_refund = Op.error ∧ (Item.begin_refund s).2 = none))
    rcases begin_refund_cases s with ⟨e, he⟩ | he
    · rw [he]
      simp
    · rw [he, create_has_errored]
      simp
  | fix =>
    show (Item.fix s).1.item.has_errored = true ↔
      (s.item.has_errored = true ∨ (Op.fix = Op.error ∧ (Item.fix s).2 = none))
    rcases fix_cases s with ⟨e, he⟩ | he
    · rw [he]
      simp
    · rw [he, create_has_errored]
      simp
  | move =>
    show (Item.move s).1.item.has_errored = true ↔
      (s.item.has_errored = true ∨ (Op.move = Op.error ∧ (Item.move s).2 = none))
    unfold Item.move
    split
    · simp
    · rename_i t hA
      split
      · simp
      · rename_i t1 hm
        have hne := move_success_status_ne_error t t1 hm
        dsimp only [Sys.saveTransaction]
        rw [update_item_status_has_errored_iff]
        simp [hne]
  | error =>
    show (Item.error s).1.item.has_errored = true ↔
      (s.item.has_errored = true ∨ (Op.error = Op.error ∧ (Item.error s).2 = none))
    unfold Item.error
    split
    · simp
    · rename_i t hA
      split
      · simp
      · rename_i t1 hm
        obtain ⟨hts, hta⟩ := error_success_shape t t1 hm
        obtain ⟨tid, hp, hf⟩ := activeTransaction_eq_some s t hA
        obtain ⟨t', hf', hact', hid'⟩ := hInv.2.2.2 tid hp
        rw [hf] at hf'
        injection hf' with hf'
        subst hf'
        dsimp only [Sys.saveTransaction]
        rw [update_item_status_has_errored_iff]
        simp [hts, hta.trans hact']

/-- A state reached from a fresh Item by a sequence of public operations. -/
def reachable (itemId : String) (amount : Int) (ops : List Op) : Sys :=
  runOps (initSys itemId amount) ops

/-- C1: on every reachable state at most one ledger row is active; a
successful `create_transaction` (also when reached through `begin_refund`
or `fix`, which delegate to it) leaves exactly one active Transaction —
the newly created, most recent row — and points the Item at it. -/
theorem claim_C1_single_active (itemId : String) (amount : Int) (ops : List Op) :
    (((reachable itemId amount ops).transactions.filter (fun t => t.is_active)).length ≤ 1) ∧
    (∀ st loc, (Item.create_transaction (reachable itemId amount ops) st loc).2 = none →
      (Item.create_transaction (reachable itemId amount ops) st loc).1.transactions.filter
          (fun t => t.is_active) =
        [newTransaction (reachable itemId amount ops) st loc] ∧
      (Item.create_transaction (reachable itemId amount ops) st loc).1.transactions.getLast? =
        some (newTransaction (reachable itemId amount ops) st loc) ∧
      (Item.create_transaction (reachable itemId amount ops) st loc).1.item.transaction =
        some (newTransaction (reachable itemId amount ops) st loc).id) ∧
    ((Item.begin_refund (reachable itemId amount ops)).2 = none →
      (Item.begin_refund (reachable itemId amount ops)).1.transactions.filter
          (fun t => t.is_active) =
        [newTransaction (reachable itemId amount ops) (some TransactionStatus.REFUNDING)
          (some TransactionLocation.ROUTABLE)] ∧
      (Item.begin_refund (reachable itemId amount ops)).1.item.transaction =
        some (newTransaction (reachable itemId amount ops) (some TransactionStatus.REFUNDING)
          (some TransactionLocation.ROUTABLE)).id) ∧
    ((Item.fix (reachable itemId amount ops)).2 = none →
      (Item.fix (reachable itemId amount ops)).1.transactions.filter
          (fun t => t.is_active) =
        [newTransaction (reachable itemId amount ops) (some TransactionStatus.FIXING)
          (some TransactionLocation.ROUTABLE)] ∧
      (Item.fix (reachable itemId amount ops)).1.item.transaction =
        some (newTransaction (reachable itemId amount ops) (some TransactionStatus.FIXING)
          (some TransactionLocation.ROUTABLE)).id) := by
  obtain ⟨hfresh, hnd, hcount, hptr⟩ :=
    Inv_runOps (initSys itemId amount) ops (Inv_initSys itemId amount)
  refine ⟨hcount, ?_, ?_, ?_⟩
  · intro st loc hsucc
    have hv := (create_transaction_snd_eq_none_iff _ st loc).mp hsucc
    refine ⟨create_transaction_success_active _ st loc hv hfresh,
      create_transaction_success_last _ st loc hv, ?_⟩
    rw [create_transaction_success_item _ st loc hv]
    rfl
  · intro h
    have heq := begin_refund_success_eq _ h
    have hsucc : (Item.create_transaction (reachable itemId amount ops)
        (some TransactionStatus.REFUNDING) (some TransactionLocation.ROUTABLE)).2 = none := by
      rw [← heq]
      exact h
    have hv := (create_transaction_snd_eq_none_iff _ _ _).mp hsucc
    rw [heq]
    refine ⟨create_transaction_success_active _ _ _ hv hfresh, ?_⟩
    rw [create_transaction_success_item _ _ _ hv]
    rfl
  · intro h
    have heq := fix_success_eq _ h
    have hsucc : (Item.create_transaction (reachable itemId amount ops)
        (some TransactionStatus.FIXING) (some TransactionLocation.ROUTABLE)).2 = none := by
      rw [← heq]
      exact h
    have hv := (create_transaction_snd_eq_none_iff _ _ _).mp hsucc
    rw [heq]
    refine ⟨create_transaction_success_active _ _ _ hv hfresh, ?_⟩
    rw [create_transaction_success_item _ _ _ hv]
    rfl

/-- Witness for C1: the first `create_transaction` on a fresh Item. -/
theorem claim_C1_single_active_witness :
    (Item.create_transaction (reachable "item" 0 []) (some TransactionStatus.PROCESSING)
        (some TransactionLocation.ORIGINATOR_BANK)).1.transactions.filter
          (fun t => t.is_active) =
      [newTransaction (reachable "item" 0 []) (some TransactionStatus.PROCESSING)
        (some TransactionLocation.ORIGINATOR_BANK)] ∧
    (Item.create_transaction (reachable "item" 0 []) (some TransactionStatus.PROCESSING)
        (some TransactionLocation.ORIGINATOR_BANK)).1.transactions.getLast? =
      some (newTransaction (reachable "item" 0 []) (some TransactionStatus.PROCESSING)
        (some TransactionLocation.ORIGINATOR_BANK)) ∧
    (Item.create_transaction (reachable "item" 0 []) (some TransactionStatus.PROCESSING)
        (some TransactionLocation.ORIGINATOR_BANK)).1.item.transaction =
      some (newTransaction (reachable "item" 0 []) (some TransactionStatus.PROCESSING)
        (some TransactionLocation.ORIGINATOR_BANK)).id :=
  (claim_C1_single_active "item" 0 []).2.1 (some TransactionStatus.PROCESSING)
    (some TransactionLocation.ORIGINATOR_BANK) (by decide)

/-- C5: `has_errored` is sticky — once true it stays true under every
further operation; it becomes true exactly when an `error` operation
succeeds; and a Transaction created while it is true classifies the Item
as CORRECTING, while one created before any error classifies it as
PROCESSING. -/
theorem claim_C5_sticky_flag (itemId : String) (amount : Int) (ops : List Op) :
    (∀ ops2, (reachable itemId amount ops).item.has_errored = true →
      (runOps (reachable itemId amount ops) ops2).item.has_errored = true) ∧
    (∀ o : Op, (apply (reachable itemId amount ops) o).1.item.has_errored = true ↔
      ((reachable itemId amount ops).item.has_errored = true ∨
       (o = Op.error ∧ (apply (reachable itemId amount ops) o).2 = none))) ∧
    (∀ st loc, (Item.create_transaction (reachable itemId amount ops) st loc).2 = none →
      (Item.create_transaction (reachable itemId amount ops) st loc).1.item.state =
        (if (reachable itemId amount ops).item.has_errored then ItemState.CORRECTING
         else ItemState.PROCESSING)) := by
  refine ⟨?_, ?_, ?_⟩
  · intro ops2 h
    exact has_errored_mono_runOps _ ops2 h
  · intro o
    exact has_errored_apply_iff _
      (Inv_runOps (initSys itemId amount) ops (Inv_initSys itemId amount)) o
  · intro st loc hsucc
    have hv := (create_transaction_snd_eq_none_iff _ st loc).mp hsucc
    rw [create_transaction_success_item _ st loc hv]

/-- Witness for C5: after create → move → error, the `fix`-shaped create
classifies the Item as CORRECTING. -/
theorem claim_C5_sticky_flag_witness :
    (Item.create_transaction
        (reachable "item" 0
          [Op.create_transaction (some TransactionStatus.PROCESSING)
            (some TransactionLocation.ORIGINATOR_BANK), Op.move, Op.error])
        (some TransactionStatus.FIXING) (some TransactionLocation.ROUTABLE)).1.item.state =
      (if (reachable "item" 0
          [Op.create_transaction (some TransactionStatus.PROCESSING)
            (some TransactionLocation.ORIGINATOR_BANK), Op.move, Op.error]).item.has_errored
       then ItemState.CORRECTING else ItemState.PROCESSING) :=
  (claim_C5_sticky_flag "item" 0
    [Op.create_transaction (some TransactionStatus.PROCESSING)
      (some TransactionLocation.ORIGINATOR_BANK), Op.move, Op.error]).2.2
    (some TransactionStatus.FIXING) (some TransactionLocation.ROUTABLE) (by decide)

/-- C7: after a successful `create_transaction` (also via `begin_refund`
or `fix`) the Item's state is the classification of the new active
Transaction (CORRECTING when `has_errored`, else PROCESSING); deactivating
a superseded Transaction flips only its `is_active` flag — status and
location are untouched — and its recompute is a no-op returning the Item
unchanged and unsaved. -/
theorem claim_C7_recompute_from_new (s : Sys) :
    (∀ (t : Transaction) (item : Item),
      Transaction.mark_inactive t item = ({ t with is_active := false }, item, false)) ∧
    (∀ st loc, (Item.create_transaction s st loc).2 = none →
      (Item.create_transaction s st loc).1.item.state =
        (if s.item.has_errored then ItemState.CORRECTING else ItemState.PROCESSING)) ∧
    ((Item.begin_refund s).2 = none →
      (Item.begin_refund s).1.item.state =
        (if s.item.has_errored then ItemState.CORRECTING else ItemState.PROCESSING)) ∧
    ((Item.fix s).2 = none →
      (Item.fix s).1.item.state =
        (if s.item.has_errored then ItemState.CORRECTING else ItemState.PROCESSING)) := by
  refine ⟨fun t item => mark_inactive_eq t item, ?_, ?_, ?_⟩
  · intro st loc hsucc
    have hv := (create_transaction_snd_eq_none_iff _ st loc).mp hsucc
    rw [create_transaction_success_item _ st loc hv]
  · intro h
    have heq := begin_refund_success_eq _ h
    have hsucc : (Item.create_transaction s (some TransactionStatus.REFUNDING)
        (some TransactionLocation.ROUTABLE)).2 = none := by
      rw [← heq]
      exact h
    have hv := (create_transaction_snd_eq_none_iff _ _ _).mp hsucc
    rw [heq, create_transaction_success_item _ _ _ hv]
  · intro h
    have heq := fix_success_eq _ h
    have hsucc : (Item.create_transaction s (some TransactionStatus.FIXING)
        (some TransactionLocation.ROUTABLE)).2 = none := by
      rw [← heq]
      exact h
    have hv := (create_transaction_snd_eq_none_iff _ _ _).mp hsucc
    rw [heq, create_transaction_success_item _ _ _ hv]

/-- Witness for C7: `fix` on an errored Item yields state CORRECTING. -/
theorem claim_C7_recompute_from_new_witness :
    (Item.fix (reachable "item" 0
        [Op.create_transaction (some TransactionStatus.PROCESSING)
          (some TransactionLocation.ORIGINATOR_BANK), Op.move, Op.error])).1.item.state =
      (if (reachable "item" 0
          [Op.create_transaction (some TransactionStatus.PROCESSING)
            (some TransactionLocation.ORIGINATOR_BANK), Op.move, Op.error]).item.has_errored
       then ItemState.CORRECTING else ItemState.PROCESSING) :=
  (claim_C7_recompute_from_new (reachable "item" 0
    [Op.create_transaction (some TransactionStatus.PROCESSING)
      (some TransactionLocation.ORIGINATOR_BANK), Op.move, Op.error])).2.2.2 (by decide)

/-- Witness for C9 at the concrete pair (FIXING, ROUTABLE). -/
theorem claim_C9_is_valid_state_exhaustive_witness :
    Transaction.is_valid_state (some TransactionStatus.FIXING)
      (some TransactionLocation.ROUTABLE) = true :=
  (claim_C9_is_valid_state_exhaustive (some TransactionStatus.FIXING)
    (some TransactionLocation.ROUTABLE)).mpr (by decide)

end ItemRouting
